import Mathlib

/-!
Verification development for the agent-voice-calls audio bridge.

The definitions below are a shallow embedding of the TypeScript source:

* audio codec helpers from src/utils/audio.ts (the file embedded in
  src/routes/generic-call.ts of the corpus): the mu-law lookup table,
  the linear-to-mu-law encoder, linear-interpolation resampling, RMS
  energy and voice-activity detection;
* the connection-state registry from src/services/websocket.ts,
  modelled as an association list with explicit state passing (the
  source mutates a process-global Map); Date.now() becomes an explicit
  integer timestamp argument;
* the streaming bridge handlers from src/services/streaming.ts and the
  11Labs message decoder from src/services/elevenlabs.ts, as pure
  functions from inputs to the messages they would send.

Modelling conventions, stated once:

* JavaScript numbers holding integer data (samples, byte values,
  timestamps) are modelled as Int.  The resampler does genuine
  double-precision arithmetic whose rounding is observable in its
  output length, so each of its arithmetic operators is modelled as
  the exact rational result passed through roundToBinary64, an
  implementation of IEEE-754 binary64 round-to-nearest-even;
  Math.floor, Math.min and Math.round are mathematically exact
  functions of their double argument and need no rounding step.  The
  RMS computation is kept exact-rational: at the inputs its claims
  quantify over (the empty buffer and all-zero buffers, compared
  against 0 or against the sign of the threshold) the double
  computation agrees with the exact one; the 0.01 threshold literal
  is modelled as 1/100.
* base64 transport (base64ToUint8Array / uint8ArrayToBase64) is a
  bijection between payload strings and byte sequences; audio payloads
  are therefore modelled directly as byte lists (List Nat, entries
  below 256) and linear PCM16 buffers as List Int.
* socket handles carry no data relevant to the claims; sends are
  modelled by returning the message value that the source would write
  to the socket, and the open-state check becomes a Bool argument.
-/

namespace AgentVoice

/-! ### String constants used by the embedding and the theorems -/

def strMedia : String := "media"
def strAudioTag : String := "audio"
def strTranscriptTag : String := "transcript"
def strInterruptionTag : String := "interruption"
def strErrorTag : String := "error"
def strParseFailure : String := "Failed to parse message"
def strCA1 : String := "CA1"
def strSS1 : String := "SS1"
def strCA100 : String := "CA100"
def strSS100 : String := "SS100"
def strMissingId : String := "missing-id"
def strEmpty : String := ""

/-! ### Audio codec (src/utils/audio.ts) -/

/-- Entry i of the mu-law decode table, from initMuLawTable:
mulaw = i ^ 0xff; t = ((mulaw & 0x0f) << 3) + 0x84; t <<= (mulaw & 0x70) >> 4;
table[i] = (mulaw & 0x80) ? 0x84 - t : t - 0x84.  Every value fits in a
signed 16-bit integer, so the Int16Array store never wraps. -/
def MULAW_TO_LINEAR (i : Nat) : Int :=
  let mulaw := i ^^^ 0xff
  let t := (((mulaw &&& 0x0f) <<< 3) + 0x84) <<< ((mulaw &&& 0x70) >>> 4)
  if mulaw &&& 0x80 ≠ 0 then (0x84 : Int) - (t : Int) else (t : Int) - 0x84

/-- Loop of linearToMulaw: while ((magnitude & mask) === 0 && position < 7)
increment position and shift the mask right.  Starting from position 0 the
guard allows at most 7 iterations, so fuel 8 reproduces the loop exactly. -/
def muLawPositionLoop (magnitude : Nat) : Nat → Nat → Nat → Nat
  | 0, pos, _ => pos
  | fuel + 1, pos, mask =>
    if magnitude &&& mask = 0 ∧ pos < 7 then
      muLawPositionLoop magnitude fuel (pos + 1) (mask >>> 1)
    else pos

/-- linearToMulaw from src/utils/audio.ts: sign and magnitude, clip to
32635, add bias 0x84, find the position by scanning from mask 0x4000 (only
when the biased magnitude is at least 256; otherwise position stays 0),
take the 4-bit mantissa, pack and invert. -/
def linearToMulaw (sample : Int) : Nat :=
  let sign : Nat := if sample < 0 then 0x80 else 0
  let clipped : Nat := min sample.natAbs 32635
  let magnitude : Nat := clipped + 0x84
  let position : Nat :=
    if 256 ≤ magnitude then muLawPositionLoop magnitude 8 0 0x4000 else 0
  let lsb : Nat := (magnitude >>> (position + 3)) &&& 0x0f
  (sign ||| (position <<< 4) ||| lsb) ^^^ 0xff

/-- mulawToPcm16: decode each companded byte through the table.  The
base64 decode and re-encode around the loop are modelled as identity on
the byte list. -/
def mulawToPcm16 (mulawBytes : List Nat) : List Int :=
  mulawBytes.map MULAW_TO_LINEAR

/-- pcm16ToMulaw: encode each linear sample with linearToMulaw. -/
def pcm16ToMulaw (pcm16Samples : List Int) : List Nat :=
  pcm16Samples.map linearToMulaw

/-- Math.round for the values produced by the resampler: ECMA-262
specifies Math.round(x) as the integral Number closest to the double x,
ties toward positive infinity — a mathematically exact function of its
argument, so it is exact-rational floor(q + 1/2). -/
def jsRound (q : ℚ) : Int := ⌊q + 1 / 2⌋

/-- Binary logarithm on Nat by repeated halving; the fuel bounds the
number of halvings, and 4096 covers every magnitude that fits the
binary64 exponent range the model supports (once the argument drops
below 2 the recursion stops regardless of remaining fuel). -/
def natLog2Fuel : Nat → Nat → Nat
  | 0, _ => 0
  | fuel + 1, n => if 2 ≤ n then natLog2Fuel fuel (n / 2) + 1 else 0

def natLog2 (n : Nat) : Nat := natLog2Fuel 4096 n

/-- Integer power of two as a rational, for scaling by the binary64
exponent. -/
def qpow2 (k : Int) : ℚ :=
  if 0 ≤ k then ((2 ^ k.toNat : Nat) : ℚ) else 1 / ((2 ^ (-k).toNat : Nat) : ℚ)

/-- Round to the nearest integer, ties to the even neighbour — the tie
rule of IEEE-754 round-to-nearest. -/
def roundHalfEven (q : ℚ) : Int :=
  let f := ⌊q⌋
  let r : ℚ := q - (f : ℚ)
  if r < 1 / 2 then f
  else if 1 / 2 < r then f + 1
  else if f % 2 = 0 then f else f + 1

/-- Floor of the binary logarithm of a positive rational: the bit
lengths of numerator and denominator pin it to within one, and a single
comparison settles which. -/
def ratFloorLog2 (a : ℚ) : Int :=
  let e0 : Int := (natLog2 a.num.natAbs : Int) - (natLog2 a.den : Int)
  if a < qpow2 e0 then e0 - 1 else e0

/-- IEEE-754 binary64 rounding, round-to-nearest ties-to-even: scale the
magnitude into [2^52, 2^53), round to an integer mantissa and scale
back (a carry to 2^53 still yields the correctly rounded value).
Overflow and subnormals are not modelled — the rates, buffer lengths
and samples the program feeds through the resampler stay far inside the
normal range.  Checked against a binary64 implementation on the
concrete quotients appearing below and on several hundred random
divisions and multiplications. -/
def roundToBinary64 (q : ℚ) : ℚ :=
  if q = 0 then 0
  else
    let a : ℚ := |q|
    let e : Int := ratFloorLog2 a
    let m : Int := roundHalfEven (a * qpow2 (52 - e))
    let r : ℚ := (m : ℚ) * qpow2 (e - 52)
    if q < 0 then -r else r

/-- The four JS double arithmetic operators: exact result, then one
binary64 rounding, as IEEE-754 prescribes. -/
def jsAdd (a b : ℚ) : ℚ := roundToBinary64 (a + b)

def jsSub (a b : ℚ) : ℚ := roundToBinary64 (a - b)

def jsMul (a b : ℚ) : ℚ := roundToBinary64 (a * b)

def jsDiv (a b : ℚ) : ℚ := roundToBinary64 (a / b)

/-- resampleAudio from src/utils/audio.ts, with every double arithmetic
operation of the source modelled through binary64 rounding: ratio =
fromRate / toRate (one rounded division), output length = Math.floor of
the rounded division length / ratio, source position i * ratio (rounded
multiplication), fractional offset by rounded subtraction, and the
linear interpolation with a rounding per multiplication, subtraction
and addition, finished by Math.round.  Indices stay in range for
nonempty outputs, so getD never takes its default; for an empty input
the output length is 0 and the loop body never runs. -/
def resampleAudio (audioData : List Int) (fromRate toRate : Nat) : List Int :=
  if fromRate = toRate then audioData
  else
    let ratio : ℚ := jsDiv (fromRate : ℚ) (toRate : ℚ)
    let outputLength : Nat := (⌊jsDiv (audioData.length : ℚ) ratio⌋).toNat
    (List.range outputLength).map (fun (i : Nat) =>
      let srcIndex : ℚ := jsMul (i : ℚ) ratio
      let srcIndexFloor : Nat := (⌊srcIndex⌋).toNat
      let srcIndexCeil : Nat := min (srcIndexFloor + 1) (audioData.length - 1)
      let t : ℚ := jsSub srcIndex (srcIndexFloor : ℚ)
      jsRound (jsAdd
        (jsMul (audioData.getD srcIndexFloor 0 : ℚ) (jsSub 1 t))
        (jsMul (audioData.getD srcIndexCeil 0 : ℚ) t)))

/-- Value under the square root in calculateRMS: the mean of the squared
normalized samples.  The source computes Math.sqrt(sum / length); for the
empty buffer sum / length is 0 / 0 = NaN in JS, modelled as none (the
square root of a nonnegative rational is otherwise monotone increasing,
so every comparison the source makes with the rms is stated through this
square). -/
def calculateRMSSquared (audioData : List Int) : Option ℚ :=
  if audioData.length = 0 then none
  else
    some (((audioData.map
        (fun (s : Int) => ((s : ℚ) / 32768) * ((s : ℚ) / 32768))).sum)
      / (audioData.length : ℚ))

/-- detectVoiceActivity: the source returns Math.sqrt(msq) > threshold.
For a real x ≥ 0, sqrt x > t iff t < 0 or t * t < x, and a NaN
comparison is false; the branches below are exactly that case split. -/
def detectVoiceActivity (audioData : List Int) (threshold : ℚ) : Bool :=
  match calculateRMSSquared audioData with
  | none => false
  | some msq =>
    if threshold < 0 then true
    else if threshold * threshold < msq then true else false

/-! ### Configuration constants (src/utils/config.ts) -/

/-- Encodings used by the two audio legs. -/
inductive AudioEncoding
  | mulaw
  | pcm16
deriving DecidableEq

structure AudioBufferConfigShape where
  chunkDurationMs : Nat
  maxBufferMs : Nat
  minBufferMs : Nat
  silenceThreshold : ℚ
deriving DecidableEq

/-- AUDIO_BUFFER_CONFIG from src/utils/config.ts. -/
def AUDIO_BUFFER_CONFIG : AudioBufferConfigShape :=
  { chunkDurationMs := 20
    maxBufferMs := 1000
    minBufferMs := 100
    silenceThreshold := 1 / 100 }

structure LoggingConfigShape where
  logAudioChunks : Bool
  logTranscripts : Bool
  logWebSocketEvents : Bool
  logLatencyMetrics : Bool
  logErrors : Bool
deriving DecidableEq

/-- LOGGING_CONFIG from src/utils/config.ts. -/
def LOGGING_CONFIG : LoggingConfigShape :=
  { logAudioChunks := false
    logTranscripts := true
    logWebSocketEvents := true
    logLatencyMetrics := true
    logErrors := true }

structure LegAudioConfigShape where
  encoding : AudioEncoding
  sampleRate : Nat
  channels : Nat
  bytesPerSample : Nat
deriving DecidableEq

/-- ELEVENLABS_AUDIO_CONFIG from src/utils/config.ts. -/
def ELEVENLABS_AUDIO_CONFIG : LegAudioConfigShape :=
  { encoding := AudioEncoding.pcm16
    sampleRate := 16000
    channels := 1
    bytesPerSample := 2 }

/-- TWILIO_AUDIO_CONFIG from src/utils/config.ts. -/
def TWILIO_AUDIO_CONFIG : LegAudioConfigShape :=
  { encoding := AudioEncoding.mulaw
    sampleRate := 8000
    channels := 1
    bytesPerSample := 1 }

/-! ### Connection state registry (src/services/websocket.ts)

The process-global Map keyed by callSid is modelled as an association
list threaded through the operations; Date.now() becomes an explicit
now argument. -/

/-- Speaker tag of a transcript entry. -/
inductive Speaker
  | agent
  | user
  | system
deriving DecidableEq

structure TranscriptEntry where
  timestamp : Int
  speaker : Speaker
  text : String
  is_final : Bool
deriving DecidableEq

/-- Typed audio-chunk container held on each leg of the session. -/
structure SessionAudioBuffer where
  chunks : List (List Nat)
  sampleRate : Nat
  encoding : AudioEncoding
deriving DecidableEq

/-- Connection state per call.  The two socket handles carry no data the
claims depend on, so presence alone is modelled. -/
structure WebSocketConnectionState where
  callSid : String
  streamSid : String
  twilioWs : Option Unit
  elevenLabsWs : Option Unit
  conversationStarted : Bool
  transcript : List TranscriptEntry
  audioBufferTwilio : SessionAudioBuffer
  audioBufferElevenLabs : SessionAudioBuffer
  conversationContext : String
  startTime : Int
deriving DecidableEq

structure ConversationMetadata where
  callSid : String
  startTime : Int
  endTime : Option Int
  totalDuration : Option Int
  utteranceCount : Nat
  agentUtterances : Nat
  userUtterances : Nat
  interruptions : Nat
  averageLatency : Option Int
deriving DecidableEq

/-- The activeConnections Map, as an association list with distinct keys
(mapSet replaces in place, mapDelete removes the key). -/
abbrev Registry := List (String × WebSocketConnectionState)

/-- Map.get: first value stored under the key. -/
def mapGet : Registry → String → Option WebSocketConnectionState
  | [], _ => none
  | (k, v) :: rest, key => if k = key then some v else mapGet rest key

/-- Map.set: replace the value under an existing key, else append. -/
def mapSet : Registry → String → WebSocketConnectionState → Registry
  | [], key, v => [(key, v)]
  | (k, w) :: rest, key, v =>
    if k = key then (key, v) :: rest else (k, w) :: mapSet rest key v

/-- Map.delete: remove the entry under the key. -/
def mapDelete : Registry → String → Registry
  | [], _ => []
  | (k, w) :: rest, key =>
    if k = key then mapDelete rest key else (k, w) :: mapDelete rest key

/-- createConnectionState: build the initial state and store it under
callSid. -/
def createConnectionState (callSid streamSid : String) (now : Int)
    (reg : Registry) : WebSocketConnectionState × Registry :=
  let state : WebSocketConnectionState :=
    { callSid := callSid
      streamSid := streamSid
      twilioWs := none
      elevenLabsWs := none
      conversationStarted := false
      transcript := []
      audioBufferTwilio :=
        { chunks := [], sampleRate := 8000, encoding := AudioEncoding.mulaw }
      audioBufferElevenLabs :=
        { chunks := [], sampleRate := 16000, encoding := AudioEncoding.pcm16 }
      conversationContext := ""
      startTime := now }
  (state, mapSet reg callSid state)

/-- Partial.WebSocketConnectionState: the updates object passed to
updateConnectionState; a none field is absent from the object. -/
structure ConnectionStateUpdates where
  callSid : Option String := none
  streamSid : Option String := none
  twilioWs : Option (Option Unit) := none
  elevenLabsWs : Option (Option Unit) := none
  conversationStarted : Option Bool := none
  transcript : Option (List TranscriptEntry) := none
  audioBufferTwilio : Option SessionAudioBuffer := none
  audioBufferElevenLabs : Option SessionAudioBuffer := none
  conversationContext : Option String := none
  startTime : Option Int := none
deriving DecidableEq

/-- Object.assign(state, updates): fields present in updates overwrite
the state. -/
def assignUpdates (s : WebSocketConnectionState) (u : ConnectionStateUpdates) :
    WebSocketConnectionState :=
  { callSid := u.callSid.getD s.callSid
    streamSid := u.streamSid.getD s.streamSid
    twilioWs := u.twilioWs.getD s.twilioWs
    elevenLabsWs := u.elevenLabsWs.getD s.elevenLabsWs
    conversationStarted := u.conversationStarted.getD s.conversationStarted
    transcript := u.transcript.getD s.transcript
    audioBufferTwilio := u.audioBufferTwilio.getD s.audioBufferTwilio
    audioBufferElevenLabs := u.audioBufferElevenLabs.getD s.audioBufferElevenLabs
    conversationContext := u.conversationContext.getD s.conversationContext
    startTime := u.startTime.getD s.startTime }

/-- updateConnectionState: merge into the existing state; silently does
nothing when the callSid has no entry. -/
def updateConnectionState (callSid : String) (updates : ConnectionStateUpdates)
    (reg : Registry) : Registry :=
  match mapGet reg callSid with
  | none => reg
  | some state => mapSet reg callSid (assignUpdates state updates)

/-- addTranscriptEntry: push an entry onto the transcript of the stored
state; silently does nothing when the callSid has no entry. -/
def addTranscriptEntry (callSid : String) (speaker : Speaker) (text : String)
    (isFinal : Bool) (now : Int) (reg : Registry) : Registry :=
  match mapGet reg callSid with
  | none => reg
  | some state =>
    mapSet reg callSid
      { state with
        transcript := state.transcript ++
          [{ timestamp := now, speaker := speaker, text := text,
             is_final := isFinal }] }

/-- getConversationMetadata: counts are taken over the entries whose
is_final flag is set; endTime and totalDuration stay unset here. -/
def getConversationMetadata (callSid : String) (reg : Registry) :
    Option ConversationMetadata :=
  match mapGet reg callSid with
  | none => none
  | some state =>
    let finalTranscript := state.transcript.filter (fun e => e.is_final)
    some
      { callSid := state.callSid
        startTime := state.startTime
        endTime := none
        totalDuration := none
        utteranceCount := finalTranscript.length
        agentUtterances :=
          (finalTranscript.filter (fun e => decide (e.speaker = Speaker.agent))).length
        userUtterances :=
          (finalTranscript.filter (fun e => decide (e.speaker = Speaker.user))).length
        interruptions := 0
        averageLatency := none }

/-- closeConnection: absent callSid returns none and leaves the registry
alone; otherwise stamp endTime and totalDuration = now - start on the
metadata, remove the entry and return the snapshot.  The graceful
socket closes (errors swallowed) are I/O with no effect on the
registry value and are not modelled. -/
def closeConnection (callSid : String) (now : Int) (reg : Registry) :
    Option ConversationMetadata × Registry :=
  match mapGet reg callSid with
  | none => (none, reg)
  | some _state =>
    let metadata := (getConversationMetadata callSid reg).map fun m =>
      { m with endTime := some now, totalDuration := some (now - m.startTime) }
    (metadata, mapDelete reg callSid)

/-- getActiveConnectionCount: Map.size. -/
def getActiveConnectionCount (reg : Registry) : Nat := reg.length

/-! ### 11Labs session adapter (src/services/elevenlabs.ts) -/

/-- Fields of a parsed inbound 11Labs JSON message that
handleElevenLabsMessage reads; a none field is absent from the JSON (or
not of the expected shape, which the switch treats the same way).  The
source field named type is modelled as msgType. -/
structure ElevenLabsInboundMessage where
  msgType : Option String := none
  audio : Option String := none
  sample_rate : Option Int := none
  text : Option String := none
  is_final : Option Bool := none
  speaker : Option String := none
  reason : Option String := none
  errorField : Option String := none
  code : Option Int := none
deriving DecidableEq

/-- Result kinds of handleElevenLabsMessage. -/
inductive ELResponseKind
  | audio
  | transcript
  | interruption
  | error
  | unknown
deriving DecidableEq

/-- Payload attached to each result kind; parseFailure is the generic
payload built in the catch branch, raw echoes the whole message for the
default branch. -/
inductive ELResponsePayload
  | audioPayload (audio : Option String) (sample_rate : Int)
  | transcriptPayload (text : Option String) (is_final : Option Bool)
      (speaker : Option String)
  | interruptionPayload (reason : Option String)
  | errorPayload (error : Option String) (code : Option Int)
  | parseFailure (error : String)
  | raw (message : ElevenLabsInboundMessage)
deriving DecidableEq

structure ElevenLabsResponse where
  msgType : ELResponseKind
  payload : ELResponsePayload
deriving DecidableEq

/-- JS or-default: message.sample_rate || default is the default when the
field is absent or 0 (both falsy). -/
def jsOrNum (x : Option Int) (dflt : Int) : Int :=
  match x with
  | none => dflt
  | some v => if v = 0 then dflt else v

/-- handleElevenLabsMessage: JSON.parse failure (input none) is caught
and yields the generic error response; otherwise the switch on
message.type classifies the message.  The string patterns of the switch
become an if chain on the same comparisons. -/
def handleElevenLabsMessage (input : Option ElevenLabsInboundMessage) :
    ElevenLabsResponse :=
  match input with
  | none =>
    { msgType := ELResponseKind.error
      payload := ELResponsePayload.parseFailure strParseFailure }
  | some m =>
    if m.msgType = some strAudioTag then
      { msgType := ELResponseKind.audio
        payload := ELResponsePayload.audioPayload m.audio
          (jsOrNum m.sample_rate (ELEVENLABS_AUDIO_CONFIG.sampleRate : Int)) }
    else if m.msgType = some strTranscriptTag then
      { msgType := ELResponseKind.transcript
        payload := ELResponsePayload.transcriptPayload m.text m.is_final m.speaker }
    else if m.msgType = some strInterruptionTag then
      { msgType := ELResponseKind.interruption
        payload := ELResponsePayload.interruptionPayload m.reason }
    else if m.msgType = some strErrorTag then
      { msgType := ELResponseKind.error
        payload := ELResponsePayload.errorPayload m.errorField m.code }
    else
      { msgType := ELResponseKind.unknown
        payload := ELResponsePayload.raw m }

/-! ### Streaming bridge (src/services/streaming.ts) -/

/-- Message sent by sendAudioToElevenLabs: an audio_input envelope with
the converted payload, the fixed outbound sample rate from
ELEVENLABS_AUDIO_CONFIG, and the is_final flag. -/
structure AudioInputMessage where
  audio : List Int
  sample_rate : Nat
  is_final : Bool
deriving DecidableEq

def sendAudioToElevenLabsMessage (audio : List Int) (isLastChunk : Bool) :
    AudioInputMessage :=
  { audio := audio
    sample_rate := ELEVENLABS_AUDIO_CONFIG.sampleRate
    is_final := isLastChunk }

/-- handleIncomingAudio from src/services/streaming.ts as the message it
sends to the 11Labs socket, or none when it sends nothing.  connected
models elevenLabsWs being non-null and OPEN; the payload is the media
event payload as bytes; the voice-activity check re-reads the converted
bytes, which round-trip through base64 unchanged. -/
def handleIncomingAudio (callSid : String) (audioPayload : List Nat)
    (connected : Bool) : Option AudioInputMessage :=
  if connected = false then none
  else
    let pcm16Audio := mulawToPcm16 audioPayload
    let audioSamples := pcm16Audio
    let hasVoice :=
      detectVoiceActivity audioSamples AUDIO_BUFFER_CONFIG.silenceThreshold
    if hasVoice || LOGGING_CONFIG.logAudioChunks then
      some (sendAudioToElevenLabsMessage pcm16Audio false)
    else none

/-- Outbound media frame written to the Twilio socket; media.payload is
flattened into the payload field (bytes in place of their base64 text). -/
structure TwilioOutboundMediaFrame where
  event : String
  streamSid : String
  payload : List Nat
deriving DecidableEq

/-- sendAudioToTwilio from src/services/streaming.ts: converts the agent
PCM16 audio back to mu-law and wraps it in a media envelope whose
streamSid field is set from the functions callSid parameter. -/
def sendAudioToTwilio (pcm16Audio : List Int) (callSid : String) :
    TwilioOutboundMediaFrame :=
  { event := strMedia
    streamSid := callSid
    payload := pcm16ToMulaw pcm16Audio }

/-- Start event of the Twilio media stream: the bridge reads
message.start.callSid and message.streamSid. -/
structure StartEvent where
  callSid : String
  streamSid : String
deriving DecidableEq

/-- Frame produced for an 11Labs audio response on a stream opened by
start: the start handler passes callSid (not streamSid) to
setupElevenLabsHandlers, which passes it on to sendAudioToTwilio. -/
def bridgeAgentAudioFrame (start : StartEvent) (agentAudio : List Int) :
    TwilioOutboundMediaFrame :=
  sendAudioToTwilio agentAudio start.callSid

/-- Projection of the metadata fields the utterance-count claims are
about. -/
def metadataCounts (m : ConversationMetadata) : Nat × Nat × Nat :=
  (m.utteranceCount, m.agentUtterances, m.userUtterances)

/-! ### Helper lemmas -/

theorem mapGet_mapSet_self (reg : Registry) (k : String)
    (v : WebSocketConnectionState) : mapGet (mapSet reg k v) k = some v := by
  induction reg with
  | nil => simp [mapSet, mapGet]
  | cons p rest ih =>
    by_cases h : p.1 = k
    · simp [mapSet, mapGet, h]
    · simpa [mapSet, mapGet, h] using ih

/-! ### Claim theorems -/

/-- C1: FALSE of the code.  The forward transform is not an inverse of
the decode table: byte 0x00 decodes to -32124, but re-encoding -32124
gives 0x7f, and 0x7f decodes to 0 — neither the original byte nor a
value in its quantization segment.  The encoder packs the loop counter
(segments numbered downward from bit 14) where the decoder expects the
segment exponent (numbered upward), so magnitudes in the top segment
re-encode as bottom-segment bytes. -/
theorem c1_mulaw_roundtrip_fails :
    MULAW_TO_LINEAR 0 = -32124 ∧
    linearToMulaw (MULAW_TO_LINEAR 0) = 0x7f ∧
    MULAW_TO_LINEAR (linearToMulaw (MULAW_TO_LINEAR 0)) = 0 := by
  refine ⟨by decide, by decide, by decide⟩

set_option maxRecDepth 2000 in
/-- C2: FALSE of the code.  On a media event with an open 11Labs socket
the forwarded buffer is the decompanded samples only — one sample per
input byte, never resampled from 8000 Hz to 16000 Hz.  At the one-byte
payload 0x00 (which passes the voice gate) the forwarded buffer has 1
sample, not 2, and differs from what resampleAudio at 8000 to 16000
would have produced. -/
theorem c2_media_audio_not_resampled :
    handleIncomingAudio strCA100 [0] true =
      some { audio := [-32124], sample_rate := 16000, is_final := false } ∧
    (mulawToPcm16 [0]).length = 1 ∧
    resampleAudio (mulawToPcm16 [0]) 8000 16000 = [-32124, -32124] ∧
    [(-32124 : Int)] ≠ resampleAudio (mulawToPcm16 [0]) 8000 16000 := by
  have hv : detectVoiceActivity (mulawToPcm16 [0])
      AUDIO_BUFFER_CONFIG.silenceThreshold = true := by
    with_unfolding_all decide
  refine ⟨?_, by decide, by with_unfolding_all decide,
    by with_unfolding_all decide⟩
  simp [handleIncomingAudio, hv, sendAudioToElevenLabsMessage,
    ELEVENLABS_AUDIO_CONFIG, LOGGING_CONFIG]
  decide

/-- C3: FALSE of the code.  For a stream started with callSid CA100 and
streamSid SS100, the frame built for an 11Labs audio message carries
streamSid = CA100 — the call identifier, not the stream identifier held
in the session state — because the start handler hands callSid to
setupElevenLabsHandlers and sendAudioToTwilio writes that value into the
streamSid field.  Event name and companded payload do match the claim. -/
theorem c3_outbound_frame_uses_callsid :
    (bridgeAgentAudioFrame ⟨strCA100, strSS100⟩ [0]).streamSid = strCA100 ∧
    strCA100 ≠ strSS100 ∧
    ((createConnectionState strCA100 strSS100 0 []).1).streamSid = strSS100 ∧
    (bridgeAgentAudioFrame ⟨strCA100, strSS100⟩ [0]).event = strMedia ∧
    (bridgeAgentAudioFrame ⟨strCA100, strSS100⟩ [0]).payload =
      pcm16ToMulaw [0] := by
  refine ⟨rfl, by decide, rfl, rfl, rfl⟩

set_option maxRecDepth 4000 in
/-- C4 (amended): resampleAudio computes the ratio and the output length
in double precision — output length = Math.floor(len / (fromRate /
toRate)) evaluated in binary64.  Where that arithmetic is exact this
coincides with the exact-rational formula: a 160-sample buffer yields
320 samples at the 8000-to-16000 pair (not the 80 of the example in the
spec, which is the output of the opposite direction) and 80 samples at
16000-to-8000.  The double rounding can however drop the length below
the exact formula: 35 samples at rates 7 to 3 yield 14, one less than
the exact floor(35 / (7/3)) = 15, because binary64 7/3 rounds up and
35 divided by it rounds to just below 15. -/
theorem c4_resample_output_length :
    (resampleAudio (List.replicate 160 0) 8000 16000).length = 320 ∧
    (resampleAudio (List.replicate 160 0) 16000 8000).length = 80 ∧
    (resampleAudio (List.replicate 35 0) 7 3).length = 14 ∧
    (⌊(35 : ℚ) / ((7 : ℚ) / 3)⌋).toNat = 15 := by
  refine ⟨by with_unfolding_all decide, by with_unfolding_all decide,
    by with_unfolding_all decide, by with_unfolding_all decide⟩

set_option maxRecDepth 2000 in
/-- C4 counterexample: the concrete instance in the claim is false — a
160-sample buffer resampled from 8000 Hz to 16000 Hz yields 320 samples,
not 80. -/
theorem c4_spec_example_is_wrong :
    (resampleAudio (List.replicate 160 0) 8000 16000).length = 320 ∧
    (320 : Nat) ≠ 80 := by
  constructor
  · have h8 : ¬((8000 : Nat) = 16000) := by decide
    simp only [resampleAudio, if_neg h8, List.length_map, List.length_range]
    with_unfolding_all decide
  · decide

/-- C5 counterexample: for the empty buffer the code divides 0 by 0, so
the value under the square root is NaN (modelled none), and the rms is
NaN — not the 0.0 the claim asserts. -/
theorem c5_empty_rms_is_nan :
    calculateRMSSquared [] = none ∧ calculateRMSSquared [] ≠ some 0 := by
  refine ⟨rfl, by decide⟩

/-- C5 (amended): rms is exactly 0.0 for every nonempty all-zero buffer
(the mean square under the root is exactly 0, and the square root of 0
is exact); for the empty buffer the rms is NaN rather than 0.0, yet
detectVoiceActivity is still false there because a NaN comparison is
false; and at every positive threshold silence — empty or all-zero —
never counts as voice. -/
theorem c5_rms_silence (l : List Int) (threshold : ℚ)
    (hz : ∀ s ∈ l, s = 0) :
    (l ≠ [] → calculateRMSSquared l = some 0) ∧
    detectVoiceActivity [] threshold = false ∧
    (0 < threshold → detectVoiceActivity l threshold = false) := by
  have hsum :
      (l.map (fun (s : Int) => ((s : ℚ) / 32768) * ((s : ℚ) / 32768))).sum = 0 := by
    apply List.sum_eq_zero
    intro y hy
    rcases List.mem_map.mp hy with ⟨s, hs, rfl⟩
    rw [hz s hs]
    norm_num
  refine ⟨?_, ?_, ?_⟩
  · intro hne
    have hlen : l.length ≠ 0 := by simpa [List.length_eq_zero] using hne
    simp [calculateRMSSquared, hlen, hsum]
  · simp [detectVoiceActivity, calculateRMSSquared]
  · intro hpos
    by_cases hne : l = []
    · subst hne
      simp [detectVoiceActivity, calculateRMSSquared]
    · have hlen : l.length ≠ 0 := by simpa [List.length_eq_zero] using hne
      have h1 : ¬ threshold < 0 := not_lt.mpr (le_of_lt hpos)
      have h2 : ¬ threshold * threshold < 0 :=
        not_lt.mpr (mul_self_nonneg threshold)
      simp [detectVoiceActivity, calculateRMSSquared, hlen, hsum, h1, h2]

/-- Witness for c5_rms_silence on a 2-sample zero buffer at the
configured threshold 1/100. -/
theorem c5_rms_silence_witness :
    calculateRMSSquared (List.replicate 2 (0 : Int)) = some 0 ∧
    detectVoiceActivity (List.replicate 2 (0 : Int)) (1 / 100) = false := by
  have h := c5_rms_silence (List.replicate 2 (0 : Int)) (1 / 100) (by decide)
  exact ⟨h.1 (by decide), h.2.2 (by with_unfolding_all decide)⟩

/-- C6: TRUE of the code.  While streaming with an open 11Labs socket,
the decoded chunk is forwarded (as a non-final audio_input message) iff
voice activity is detected at the configured threshold 1/100, or the
verbose audio-chunk logging flag is set; that flag is off in the shipped
configuration, so silence is dropped. -/
theorem c6_voice_gate (callSid : String) (payload : List Nat) :
    AUDIO_BUFFER_CONFIG.silenceThreshold = 1 / 100 ∧
    LOGGING_CONFIG.logAudioChunks = false ∧
    (handleIncomingAudio callSid payload true =
        some (sendAudioToElevenLabsMessage (mulawToPcm16 payload) false) ↔
      detectVoiceActivity (mulawToPcm16 payload)
        AUDIO_BUFFER_CONFIG.silenceThreshold = true) ∧
    (handleIncomingAudio callSid payload true = none ↔
      detectVoiceActivity (mulawToPcm16 payload)
        AUDIO_BUFFER_CONFIG.silenceThreshold = false) ∧
    (sendAudioToElevenLabsMessage (mulawToPcm16 payload) false).is_final
      = false := by
  refine ⟨rfl, rfl, ?_, ?_, rfl⟩ <;>
    cases h : detectVoiceActivity (mulawToPcm16 payload)
      AUDIO_BUFFER_CONFIG.silenceThreshold <;>
    simp [handleIncomingAudio, LOGGING_CONFIG, h]

set_option maxRecDepth 2000 in
/-- Witness for c6_voice_gate: the loud one-byte payload 0x00 passes the
gate and is forwarded. -/
theorem c6_voice_gate_witness :
    handleIncomingAudio strCA100 [0] true =
      some (sendAudioToElevenLabsMessage (mulawToPcm16 [0]) false) :=
  ((c6_voice_gate strCA100 [0]).2.2.1).mpr (by with_unfolding_all decide)

/-- C7: TRUE of the code.  From the empty registry, create CA1/SS1 then
close CA1: the entry is gone, the count is 0, the returned snapshot
carries the per-speaker utterance counts (zero here) and totalDuration =
close time minus start time, and closing CA1 again returns none. -/
theorem c7_create_then_close (t0 t1 t2 : Int) :
    mapGet (closeConnection strCA1 t1
      (createConnectionState strCA1 strSS1 t0 []).2).2 strCA1 = none ∧
    getActiveConnectionCount (closeConnection strCA1 t1
      (createConnectionState strCA1 strSS1 t0 []).2).2 = 0 ∧
    (closeConnection strCA1 t1
        (createConnectionState strCA1 strSS1 t0 []).2).1 =
      some { callSid := strCA1, startTime := t0, endTime := some t1,
             totalDuration := some (t1 - t0), utteranceCount := 0,
             agentUtterances := 0, userUtterances := 0, interruptions := 0,
             averageLatency := none } ∧
    (closeConnection strCA1 t2 (closeConnection strCA1 t1
      (createConnectionState strCA1 strSS1 t0 []).2).2).1 = none := by
  refine ⟨rfl, rfl, rfl, rfl⟩

/-- Witness for c7_create_then_close at start time 0 and close time 5:
the snapshot reports totalDuration 5. -/
theorem c7_create_then_close_witness :
    (closeConnection strCA1 5
        (createConnectionState strCA1 strSS1 0 []).2).1 =
      some { callSid := strCA1, startTime := 0, endTime := some 5,
             totalDuration := some (5 - 0), utteranceCount := 0,
             agentUtterances := 0, userUtterances := 0, interruptions := 0,
             averageLatency := none } :=
  (c7_create_then_close 0 5 9).2.2.1

/-- C8: TRUE of the code.  Against a call identifier with no registry
entry, updateConnectionState and addTranscriptEntry return the registry
unchanged: no exception (the functions are total), no entry created, no
entry modified. -/
theorem c8_missing_session_noop (reg : Registry) (callSid : String)
    (updates : ConnectionStateUpdates) (speaker : Speaker) (text : String)
    (isFinal : Bool) (now : Int) (h : mapGet reg callSid = none) :
    updateConnectionState callSid updates reg = reg ∧
    addTranscriptEntry callSid speaker text isFinal now reg = reg := by
  constructor
  · simp [updateConnectionState, h]
  · simp [addTranscriptEntry, h]

/-- Witness for c8_missing_session_noop on the empty registry and the
identifier missing-id. -/
theorem c8_missing_session_noop_witness :
    updateConnectionState strMissingId {} [] = [] ∧
    addTranscriptEntry strMissingId Speaker.user strEmpty true 0 [] = [] :=
  c8_missing_session_noop [] strMissingId {} Speaker.user strEmpty true 0 rfl

/-- C9: TRUE of the code.  Malformed JSON (parse failure, input none) is
caught and yields the generic error response instead of propagating; for
parsed messages the result kind is exactly determined by the type field:
audio, transcript, interruption and error map to their kinds, and every
other type value (or an absent type field) maps to unknown. -/
theorem c9_decode_classification (m : ElevenLabsInboundMessage) :
    handleElevenLabsMessage none =
      { msgType := ELResponseKind.error
        payload := ELResponsePayload.parseFailure strParseFailure } ∧
    ((handleElevenLabsMessage (some m)).msgType = ELResponseKind.audio ↔
      m.msgType = some strAudioTag) ∧
    ((handleElevenLabsMessage (some m)).msgType = ELResponseKind.transcript ↔
      m.msgType = some strTranscriptTag) ∧
    ((handleElevenLabsMessage (some m)).msgType = ELResponseKind.interruption ↔
      m.msgType = some strInterruptionTag) ∧
    ((handleElevenLabsMessage (some m)).msgType = ELResponseKind.error ↔
      m.msgType = some strErrorTag) ∧
    ((handleElevenLabsMessage (some m)).msgType = ELResponseKind.unknown ↔
      (m.msgType ≠ some strAudioTag ∧ m.msgType ≠ some strTranscriptTag ∧
       m.msgType ≠ some strInterruptionTag ∧ m.msgType ≠ some strErrorTag)) := by
  refine ⟨rfl, ?_, ?_, ?_, ?_, ?_⟩ <;>
    by_cases h1 : m.msgType = some strAudioTag <;>
    by_cases h2 : m.msgType = some strTranscriptTag <;>
    by_cases h3 : m.msgType = some strInterruptionTag <;>
    by_cases h4 : m.msgType = some strErrorTag <;>
    simp_all [handleElevenLabsMessage, strAudioTag, strTranscriptTag,
      strInterruptionTag, strErrorTag]

/-- Witness for c9_decode_classification: a message whose type field is
the transcript tag is classified as a transcript. -/
theorem c9_decode_classification_witness :
    (handleElevenLabsMessage
      (some { msgType := some strTranscriptTag })).msgType =
      ELResponseKind.transcript :=
  ((c9_decode_classification { msgType := some strTranscriptTag }).2.2.1).mpr rfl

/-- C10: TRUE of the code.  The metadata counts (total, agent, user) are
computed over the entries whose finality flag is set, so appending a
non-final entry changes none of them — neither in getConversationMetadata
nor in the snapshot returned by closeConnection. -/
theorem c10_nonfinal_entries_not_counted (reg : Registry)
    (callSid text : String) (speaker : Speaker) (t now : Int) :
    (getConversationMetadata callSid
        (addTranscriptEntry callSid speaker text false t reg)).map metadataCounts =
      (getConversationMetadata callSid reg).map metadataCounts ∧
    ((closeConnection callSid now
        (addTranscriptEntry callSid speaker text false t reg)).1).map metadataCounts =
      ((closeConnection callSid now reg).1).map metadataCounts := by
  cases h : mapGet reg callSid with
  | none =>
    simp [addTranscriptEntry, h]
  | some s =>
    have hget : mapGet (addTranscriptEntry callSid speaker text false t reg)
        callSid = some { s with transcript := s.transcript ++
          [{ timestamp := t, speaker := speaker, text := text,
             is_final := false }] } := by
      simp [addTranscriptEntry, h, mapGet_mapSet_self]
    constructor
    · simp [getConversationMetadata, h, hget, metadataCounts,
        List.filter_append]
    · simp [closeConnection, getConversationMetadata, h, hget,
        metadataCounts, List.filter_append]

/-- Witness for c10_nonfinal_entries_not_counted on a freshly created
session for CA100. -/
theorem c10_nonfinal_entries_not_counted_witness :
    (getConversationMetadata strCA100
        (addTranscriptEntry strCA100 Speaker.agent strEmpty false 3
          (createConnectionState strCA100 strSS100 0 []).2)).map metadataCounts =
      (getConversationMetadata strCA100
        (createConnectionState strCA100 strSS100 0 []).2).map metadataCounts :=
  (c10_nonfinal_entries_not_counted
    (createConnectionState strCA100 strSS100 0 []).2 strCA100 strEmpty
    Speaker.agent 3 7).1

end AgentVoice
